import Mathlib

/-!
# Verification of the legion job/event subsystem

Shallow embedding of the repository's event bus (`src/handlers/event_bus.py`),
proxy-monitor job (`src/jobs/proxy_monitor.py`), embedding job
(`src/jobs/embed.py`) and autobot job (`src/jobs/autobot.py`), together with
proofs of the spec's claims about them.

External collaborators (the explorer service, the database session, the
embedding service, the agent) are modelled as explicit environments whose
fallible calls return `Except`; an exception raised by the Python code is an
`Except.error` value here.  The pieces of the repository that live outside
the provided sources (`src/handlers/base.py`, `src/jobs/base.py`,
`src/models/base.py`) are modelled from the spec and marked as such.

The file is organised as definitions first, theorems second.
-/

namespace Legion

/-- Modelled from the spec: `HandlerTrigger` (src/handlers/base.py is not in
the provided sources) is "a closed enumeration of domain event kinds (e.g.,
CONTRACT_UPGRADED, GITHUB_PUSH, ASSET_REVISED, PROJECT_CREATED)". -/
inductive HandlerTrigger where
  | CONTRACT_UPGRADED
  | GITHUB_PUSH
  | ASSET_REVISED
  | PROJECT_CREATED
deriving DecidableEq, Repr

/-- Modelled from the spec: job status enum of `src/jobs/base.py` (not in the
provided sources): "status (enum: PENDING, RUNNING, COMPLETED, FAILED,
STOPPED)". -/
inductive JobStatus where
  | PENDING
  | RUNNING
  | COMPLETED
  | FAILED
  | STOPPED
deriving DecidableEq, Repr

/-- A job status is terminal when it is COMPLETED, FAILED or STOPPED. -/
def JobStatus.isTerminal : JobStatus → Bool
  | .COMPLETED => true
  | .FAILED => true
  | .STOPPED => true
  | .PENDING => false
  | .RUNNING => false

/-- Modelled from the spec: `JobResult` of `src/jobs/base.py` (not in the
provided sources): "immutable outcome snapshot: success flag, human-readable
message, ...".  Only the fields the claims mention are carried.  A job's
`complete(JobResult)` sets status COMPLETED and stores the result; `fail(e)`
sets status FAILED and stores the error string. -/
structure JobResult where
  success : Bool
  message : String
deriving DecidableEq, Repr

/-! ## EventBus (src/handlers/event_bus.py)

A handler class is modelled by its `get_triggers` list and a `create`
function standing for `handler_class(); handler.set_context(context,
trigger)`:  `Except.error e` means instantiation or `set_context` raised,
`Except.ok beh` yields the behaviour of the instance's `handle()`
coroutine, itself an `Except`: `Except.error e` means `handle()` raised
(caught and logged by `_execute_handler`), `Except.ok r` means it returned
result `r`. -/

/-- The `context: Dict` passed to `trigger_event`, as a string dictionary. -/
abbrev Context := List (String × String)

/-- A handler class registered with the event bus. -/
structure HandlerClass where
  get_triggers : List HandlerTrigger
  create : Context → HandlerTrigger → Except String (Except String String)

/-- The `_handlers: Dict[HandlerTrigger, List[Type[Handler]]]` map; a trigger
absent from the dict is an empty list. -/
def EventBusState := HandlerTrigger → List HandlerClass

/-- `EventBus.initialize` sets `self._handlers = {}`. -/
def EventBusState.init : EventBusState := fun _ => []

/-- `EventBus.register_handler`: for every occurrence of a trigger in
`handler_class.get_triggers()`, append the class to that trigger's list. -/
def register_handler (bus : EventBusState) (hc : HandlerClass) : EventBusState :=
  fun t => bus t ++ List.replicate (hc.get_triggers.count t) hc

/-- `EventBus._execute_handler`: awaits `handler.handle()` and catches any
exception, so the surrounding task always completes; the recorded outcome is
the handle result or the caught error. -/
def execute_handler (beh : Except String String) : Except String String := beh

/-- The dispatch body of `EventBus.trigger_event` over a handler list: the
creation loop instantiates each class and calls `set_context` inside a
`try`, a creation failure is logged and produces no task; the created tasks
are then gathered, each one running `_execute_handler`. -/
def dispatchList (hs : List HandlerClass) (trigger : HandlerTrigger)
    (ctx : Context) : List (Except String String) :=
  (hs.filterMap (fun hc =>
    match hc.create ctx trigger with
    | .error _ => none
    | .ok beh => some beh)).map execute_handler

/-- `EventBus.trigger_event`: with no handlers registered for the trigger it
logs and returns; otherwise it dispatches every registered class and waits
for all tasks.  The returned list is the gathered per-task outcome log; the
function is total, i.e. `trigger_event` never raises. -/
def trigger_event (bus : EventBusState) (trigger : HandlerTrigger)
    (ctx : Context) : List (Except String String) :=
  let hs := bus trigger
  if hs.isEmpty then []
  else dispatchList hs trigger ctx

/-- A handler class runs to completion for a given context and trigger when
its instantiation, `set_context` and `handle()` all succeed. -/
def handlerSucceeds (hc : HandlerClass) (ctx : Context)
    (trigger : HandlerTrigger) : Bool :=
  match hc.create ctx trigger with
  | .ok (.ok _) => true
  | _ => false

/-- A handler class raises during dispatch when its instantiation,
`set_context` or `handle()` raises. -/
def handlerRaises (hc : HandlerClass) (ctx : Context)
    (trigger : HandlerTrigger) : Bool :=
  match hc.create ctx trigger with
  | .error _ => true
  | .ok (.error _) => true
  | .ok (.ok _) => false

/-- Number of handler executions in a dispatch log that ran to completion. -/
def completedCount (log : List (Except String String)) : Nat :=
  (log.filter (fun r => match r with | .ok _ => true | .error _ => false)).length

/-- Sample handler whose pipeline completes successfully. -/
def goodHandlerA : HandlerClass :=
  { get_triggers := [.CONTRACT_UPGRADED]
    create := fun _ _ => .ok (.ok "handled") }

/-- Sample handler whose `handle()` raises. -/
def raisingHandler : HandlerClass :=
  { get_triggers := [.CONTRACT_UPGRADED]
    create := fun _ _ => .ok (.error "boom") }

/-- Sample bus with three registered handlers, the middle one raising. -/
def demoBus : EventBusState :=
  fun _ => [goodHandlerA, raisingHandler, goodHandlerA]

/-! ## Data model for the proxy monitor (src/jobs/proxy_monitor.py)

`Asset` and `AssetType` live in `src/models/base.py`, which is not among
the provided sources; their shape is modelled from the spec: "Asset has
identifier, asset_type, project foreign key, optional `implementation`
self-referential relation (proxy→implementation contract), and an
open-ended extra_data mapping ... (e.g., implementation_history,
is_not_proxy flag)".  The self-referential relation is represented by the
identifier of the linked implementation asset.  The `extra_data` JSON dict
is represented by a record of the keys the job reads and writes; a `None`
`extra_data` is `Option.none`. -/

/-- Modelled from the spec: the asset-type enum of `src/models/base.py`
(not in the provided sources); the job only distinguishes
`DEPLOYED_CONTRACT` from the rest. -/
inductive AssetType where
  | DEPLOYED_CONTRACT
  | GITHUB_REPO
  | OTHER
deriving DecidableEq, Repr

/-- One record of `extra_data["implementation_history"]`. -/
structure HistoryEntry where
  address : String
  url : String
  block_number : Nat
  timestamp : Nat
deriving DecidableEq, Repr

/-- The `extra_data` keys touched by the proxy monitor. -/
structure ExtraData where
  is_not_proxy : Bool
  implementation_history : List HistoryEntry
  is_implementation : Bool
  explorer_url : Option String
deriving DecidableEq, Repr

/-- The empty dict `{}`. -/
def ExtraData.empty : ExtraData :=
  { is_not_proxy := false
    implementation_history := []
    is_implementation := false
    explorer_url := none }

/-- A stored asset row (see the module docstring above for provenance). -/
structure Asset where
  identifier : String
  project_id : Nat
  asset_type : AssetType
  source_url : Option String
  local_path : Option String
  implementation : Option String
  extra_data : Option ExtraData
deriving DecidableEq, Repr

/-- One proxy-upgrade event returned by
`EVMExplorer.get_proxy_upgrade_events`: a dict with keys `implementation`,
`blockNumber`, `timestamp` (chronological order, last = most recent). -/
structure UpgradeEvent where
  implementation : String
  blockNumber : Nat
  timestamp : Nat
deriving DecidableEq, Repr, Inhabited

/-- The context of an emitted `CONTRACT_UPGRADED` event:
`{proxy, old_implementation, new_implementation, event}`, with the asset
arguments represented by their identifiers. -/
structure EmittedUpgrade where
  proxy : String
  old_implementation : Option String
  new_implementation : String
  event : UpgradeEvent
deriving DecidableEq, Repr

/-- The external collaborators of `ProxyMonitorJob` (`EVMExplorer`,
`fetch_verified_sources`, `Config`, the database session), as a
deterministic environment.  A Python exception is an `Except.error`. -/
structure ProxyEnv where
  /-- `self.explorer.get_proxy_upgrade_events(identifier)`. -/
  get_proxy_upgrade_events : String → Except String (List UpgradeEvent)
  /-- `self.explorer.is_supported_explorer(identifier)` returning
  `(is_supported, explorer_type)`. -/
  is_supported_explorer : String → Bool × String
  /-- `self.explorer.EXPLORERS[explorer_type]["domain"]`. -/
  explorer_domain : String → String
  /-- `fetch_verified_sources(impl_url, target_dir)`. -/
  fetch_verified_sources : String → String → Except String Unit
  /-- `self.config.data_dir`. -/
  data_dir : String
  /-- Opening the session and running the initial `session.query(Asset)`:
  an error here is the error outside the per-contract loop. -/
  open_query : Except String Unit

/-- `extra_data.cast(JSONB).contains({"is_not_proxy": True})`: the dict has
the key `is_not_proxy` with value true. -/
def hasIsNotProxyFlag (a : Asset) : Bool :=
  match a.extra_data with
  | some ed => ed.is_not_proxy
  | none => false

/-- The initial query: deployed contracts that have not been marked as
non-proxies (lines 37-44 of src/jobs/proxy_monitor.py). -/
def proxyQuery (db : List Asset) : List Asset :=
  db.filter (fun a =>
    a.asset_type == AssetType.DEPLOYED_CONTRACT && !(hasIsNotProxyFlag a))

/-- Committing a modified row: every row with the contract's identifier is
replaced by the updated value. -/
def updateAsset (db : List Asset) (ident : String) (a' : Asset) : List Asset :=
  db.map (fun a => if a.identifier == ident then a' else a)

/-- The canonical explorer URL of an implementation address:
`f"https://{explorer_domain}/address/{impl_address}"` (line 82 of
src/jobs/proxy_monitor.py). -/
def implementationUrl (env : ProxyEnv) (explorer_type : String)
    (impl_address : String) : String :=
  "https://" ++ env.explorer_domain explorer_type ++ "/address/"
    ++ impl_address

/-- Lines 95-97 of src/jobs/proxy_monitor.py: the download directory
`os.path.join(data_dir, str(project_id), netloc, path.strip("/"))` of the
parsed implementation URL. -/
def targetDir (env : ProxyEnv) (project_id : Nat) (domain : String)
    (impl_address : String) : String :=
  env.data_dir ++ "/" ++ toString project_id ++ "/" ++ domain ++ "/"
    ++ "address/" ++ impl_address

/-- Lines 113-131 of src/jobs/proxy_monitor.py, in-memory part: the proxy
contract after `contract.implementation = impl_asset` and the append of the
`{address, url, block_number, timestamp}` record to
`extra_data["implementation_history"]` (initialising `extra_data` and the
history list when absent). -/
def relinkedContract (contract : Asset) (latest_event : UpgradeEvent)
    (impl_url implIdent : String) : Asset :=
  let ed := contract.extra_data.getD ExtraData.empty
  { contract with
      implementation := some implIdent
      extra_data := some
        { ed with
            implementation_history := ed.implementation_history ++
              [{ address := latest_event.implementation
                 url := impl_url
                 block_number := latest_event.blockNumber
                 timestamp := latest_event.timestamp }] } }

/-- Lines 113-145 of src/jobs/proxy_monitor.py: re-link the proxy's
`implementation` relation, append the history record, commit
(`session.commit()`), and only then trigger `CONTRACT_UPGRADED` with
`{proxy, old_implementation, new_implementation, event}`: the returned
database reflects the commit and the returned list the emission that
follows it. -/
def linkImplementation (db : List Asset) (contract : Asset)
    (latest_event : UpgradeEvent) (impl_url : String) (implIdent : String) :
    List Asset × List EmittedUpgrade :=
  (updateAsset db contract.identifier
      (relinkedContract contract latest_event impl_url implIdent),
    [{ proxy := contract.identifier
       old_implementation := contract.implementation
       new_implementation := implIdent
       event := latest_event }])

/-- Lines 102-111 of src/jobs/proxy_monitor.py: the implementation asset
created when the implementation URL is not yet in the database. -/
def createdImplAsset (contract : Asset) (impl_url target_dir : String) :
    Asset :=
  { identifier := impl_url
    project_id := contract.project_id
    asset_type := .DEPLOYED_CONTRACT
    source_url := some impl_url
    local_path := some target_dir
    implementation := none
    extra_data := some
      { ExtraData.empty with
          is_implementation := true
          explorer_url := some impl_url } }

/-- The body of the per-contract loop (lines 48-150 of
src/jobs/proxy_monitor.py).  An exception from a collaborator call is
caught by the per-contract handler: the session is rolled back (the
committed database is returned unchanged) and the loop continues. -/
def processContract (env : ProxyEnv) (db : List Asset) (contract : Asset) :
    List Asset × List EmittedUpgrade :=
  match env.get_proxy_upgrade_events contract.identifier with
  | .error _ => (db, [])
  | .ok [] =>
      -- no events: mark the contract as a non-proxy and commit
      let ed := contract.extra_data.getD ExtraData.empty
      let contract' :=
        { contract with extra_data := some { ed with is_not_proxy := true } }
      (updateAsset db contract.identifier contract', [])
  | .ok (ev :: evs) =>
      -- latest_event = events[-1]
      let latest_event := (ev :: evs).getLast!
      let impl_address := latest_event.implementation
      let supported := env.is_supported_explorer contract.identifier
      if supported.1 = false then (db, [])
      else
        let impl_url := implementationUrl env supported.2 impl_address
        if contract.implementation = some impl_url then (db, [])
        else
          match db.find? (fun a => a.identifier == impl_url) with
          | some impl_asset =>
              linkImplementation db contract latest_event impl_url
                impl_asset.identifier
          | none =>
              let target_dir := targetDir env contract.project_id
                (env.explorer_domain supported.2) impl_address
              match env.fetch_verified_sources impl_url target_dir with
              | .error _ => (db, [])
              | .ok _ =>
                  let impl_asset := createdImplAsset contract impl_url
                    target_dir
                  linkImplementation (db ++ [impl_asset]) contract
                    latest_event impl_url impl_asset.identifier

/-- The per-contract loop over the queried snapshot, threading the
committed database and collecting the emitted events in order. -/
def processAll (env : ProxyEnv) (cs : List Asset) (db : List Asset) :
    List Asset × List EmittedUpgrade :=
  match cs with
  | [] => (db, [])
  | c :: rest =>
      let r := processContract env db c
      let r' := processAll env rest r.1
      (r'.1, r.2 ++ r'.2)

/-- Outcome of one `ProxyMonitorJob.start()` run: final committed database,
emitted `CONTRACT_UPGRADED` events, and the job's terminal state. -/
structure ProxyRunOutcome where
  db : List Asset
  emitted : List EmittedUpgrade
  status : JobStatus
  result : Option JobResult
  error : Option String
deriving DecidableEq, Repr

/-- `ProxyMonitorJob.start` (lines 30-156 of src/jobs/proxy_monitor.py): on
an error outside the per-contract loop the job calls `fail` and ends
FAILED; otherwise it runs the loop over the query snapshot and calls
`complete(JobResult(success=True, message="Proxy monitoring completed
successfully"))`. -/
def proxyMonitorRun (env : ProxyEnv) (db : List Asset) : ProxyRunOutcome :=
  match env.open_query with
  | .error e =>
      { db := db, emitted := [], status := .FAILED, result := none
        error := some e }
  | .ok _ =>
      let st := processAll env (proxyQuery db) db
      { db := st.1
        emitted := st.2
        status := .COMPLETED
        result := some
          { success := true
            message := "Proxy monitoring completed successfully" }
        error := none }

/-- The asset as flagged by the no-events branch (lines 55-68). -/
def flaggedNonProxy (contract : Asset) : Asset :=
  { contract with
      extra_data := some
        { contract.extra_data.getD ExtraData.empty with is_not_proxy := true } }

/-- The `implementation_history` list stored in an asset's `extra_data`
(absent dict or key reads as the empty list). -/
def historyOf (a : Asset) : List HistoryEntry :=
  (a.extra_data.getD ExtraData.empty).implementation_history

/-! ## EmbedJob (src/jobs/embed.py) -/

/-- Substring test over the character lists: `pat in s` of Python. -/
def charListContains : List Char → List Char → Bool
  | [], pat => pat.isEmpty
  | c :: t, pat => pat.isPrefixOf (c :: t) || charListContains t pat

/-- Python's `pat in str(e)` membership test on strings. -/
def containsSubstr (s pat : String) : Bool :=
  charListContains s.data pat.data

/-- `EmbedJob.BATCH_SIZE = 10`: commit every 10 assets. -/
def BATCH_SIZE : Nat := 10

/-- External collaborators of `EmbedJob`: the asset query, the embedding
service (`update_asset_embedding`, whose result is abstracted to a list of
sample values — the empty list is Python's falsy "empty embedding"), the
`session.execute` of the UPDATE statement per asset id, and
`session.commit()` keyed by the number of commits so far. -/
structure EmbedEnv where
  query_ok : Except String (List Nat)
  update_asset_embedding : Nat → Except String (List Int)
  execute_update : Nat → Except String Unit
  commit : Nat → Except String Unit

/-- Mutable state of `EmbedJob.start`'s batch loop: `self.processed`,
`self.failed`, `self._commit_count`, `current_batch`, and the exception
being re-raised out of the loop (if any). -/
structure EmbedState where
  processed : Nat
  failed : Nat
  commit_count : Nat
  current_batch : List Nat
  raised : Option String
deriving DecidableEq, Repr

/-- One iteration of the batch loop (lines 48-114 of src/jobs/embed.py) for
item index `i` and asset id `aid`.  A caught per-item exception increments
`failed`; if its message contains "Database error" it is re-raised
(`raised` is set), which aborts the remaining iterations. -/
def embedStep (env : EmbedEnv) (total : Nat) (st : EmbedState)
    (i aid : Nat) : EmbedState :=
  if st.raised.isSome then st
  else
    match env.update_asset_embedding aid with
    | .error e =>
        let st' := { st with failed := st.failed + 1 }
        if containsSubstr e "Database error" then { st' with raised := some e }
        else st'
    | .ok [] => st
    | .ok (_ :: _) =>
        match env.execute_update aid with
        | .error e =>
            let st' := { st with failed := st.failed + 1 }
            if containsSubstr e "Database error" then
              { st' with raised := some e }
            else st'
        | .ok _ =>
            let st' := { st with
              processed := st.processed + 1
              current_batch := st.current_batch ++ [aid] }
            if (BATCH_SIZE ≤ st'.current_batch.length ∨ i = total - 1)
                ∧ st'.current_batch ≠ [] then
              match env.commit st'.commit_count with
              | .ok _ =>
                  { st' with
                      commit_count := st'.commit_count + 1
                      current_batch := [] }
              | .error e =>
                  let st'' := { st' with failed := st'.failed + 1 }
                  if containsSubstr e "Database error" then
                    { st'' with raised := some e }
                  else st''
            else st'

/-- The `for i, asset in enumerate(assets)` loop. -/
def embedLoop (env : EmbedEnv) (total : Nat) (items : List (Nat × Nat))
    (st : EmbedState) : EmbedState :=
  match items with
  | [] => st
  | (i, aid) :: rest => embedLoop env total rest (embedStep env total st i aid)

/-- Terminal outcome of `EmbedJob.start`. -/
structure EmbedOutcome where
  status : JobStatus
  result : Option JobResult
  error : Option String
  processed : Nat
  failed : Nat
deriving DecidableEq, Repr

/-- Lines 116-128 of src/jobs/embed.py: building the `JobResult` with
`success=self.failed == 0` and the stats message, then `complete`; a raised
exception instead reaches the outer handler and `fail(str(e))`. -/
def embedFinish (final : EmbedState) : EmbedOutcome :=
  match final.raised with
  | some e =>
      { status := .FAILED, result := none, error := some e
        processed := final.processed, failed := final.failed }
  | none =>
      { status := .COMPLETED
        result := some
          { success := final.failed == 0
            message := "Generated embeddings for "
              ++ toString final.processed ++ " assets ("
              ++ toString final.failed ++ " failed)" }
        error := none
        processed := final.processed
        failed := final.failed }

/-- `EmbedJob.start` (lines 29-132 of src/jobs/embed.py). -/
def embedStart (env : EmbedEnv) : EmbedOutcome :=
  match env.query_ok with
  | .error e =>
      { status := .FAILED, result := none, error := some e
        processed := 0, failed := 0 }
  | .ok assets =>
      embedFinish (embedLoop env assets.length assets.enum
        { processed := 0, failed := 0, commit_count := 0
          current_batch := [], raised := none })

/-! ## AutobotJob (src/jobs/autobot.py) -/

/-- The result of `self.agent.execute_task(task)`: success flag,
`data.get("result")`, and the optional error string. -/
structure AgentResult where
  success : Bool
  data_result : Option String
  error : Option String
deriving DecidableEq, Repr

/-- External collaborator of `AutobotJob`: the agent call, which may
raise. -/
structure AutobotEnv where
  execute_task : Except String AgentResult

/-- Terminal outcome of `AutobotJob.start`. -/
structure AutobotOutcome where
  status : JobStatus
  result : Option JobResult
  error : Option String
deriving DecidableEq, Repr

/-- Python's `opt or default` on an optional string: the default replaces
both a missing and an empty (falsy) string. -/
def orDefault (o : Option String) (dflt : String) : String :=
  match o with
  | some s => if s = "" then dflt else s
  | none => dflt

/-- `AutobotJob.start` (lines 20-54 of src/jobs/autobot.py): on agent
success, `complete` with `result.data.get("result", "Task completed
successfully")` as message; on agent failure, `fail(result.error or "Task
failed without specific error message")`; on an exception,
`fail(str(e))`. -/
def autobotStart (env : AutobotEnv) : AutobotOutcome :=
  match env.execute_task with
  | .error e => { status := .FAILED, result := none, error := some e }
  | .ok r =>
      if r.success then
        { status := .COMPLETED
          result := some
            { success := true
              message := r.data_result.getD "Task completed successfully" }
          error := none }
      else
        { status := .FAILED
          result := none
          error := some
            (orDefault r.error "Task failed without specific error message") }

/-! ## Concrete sample data for witnesses and counterexamples -/

/-- A tracked proxy contract row. -/
def sampleProxy : Asset :=
  { identifier := "https://e.io/address/P"
    project_id := 7
    asset_type := .DEPLOYED_CONTRACT
    source_url := none
    local_path := none
    implementation := none
    extra_data := none }

/-- Upgrade event pointing at implementation address 0xA. -/
def sampleEventA : UpgradeEvent :=
  { implementation := "0xA", blockNumber := 11, timestamp := 101 }

/-- Upgrade event pointing at implementation address 0xB. -/
def sampleEventB : UpgradeEvent :=
  { implementation := "0xB", blockNumber := 22, timestamp := 202 }

/-- An explorer environment shared by the sample scenarios: one supported
explorer with domain `e.io`, successful fetches, successful session. -/
def sampleEnvBase : ProxyEnv :=
  { get_proxy_upgrade_events := fun _ => .ok []
    is_supported_explorer := fun _ => (true, "etherscan")
    explorer_domain := fun _ => "e.io"
    fetch_verified_sources := fun _ _ => .ok ()
    data_dir := "/data"
    open_query := .ok () }

/-- C2 counterexample environment: the proxy's latest event points at 0xA;
the implementation contract at `https://e.io/address/0xA` has its own
upgrade event pointing at 0xB; event sequences are fixed (identical on
every run). -/
def envTwoRuns : ProxyEnv :=
  { sampleEnvBase with
      get_proxy_upgrade_events := fun s =>
        if s = "https://e.io/address/P" then .ok [sampleEventA]
        else if s = "https://e.io/address/0xA" then .ok [sampleEventB]
        else .ok [] }

/-- C2 witness environment: the proxy is already linked to the latest
event's implementation URL. -/
def envLinked : ProxyEnv :=
  { sampleEnvBase with
      get_proxy_upgrade_events := fun _ => .ok [sampleEventA] }

/-- The sample proxy already linked to `https://e.io/address/0xA`. -/
def sampleLinkedProxy : Asset :=
  { sampleProxy with implementation := some "https://e.io/address/0xA" }

/-- C4/C10 environment: every explorer call raises. -/
def envExplorerDown : ProxyEnv :=
  { sampleEnvBase with
      get_proxy_upgrade_events := fun _ => .error "RPC timeout" }

/-- C10 witness environment: same failing explorer, distinct value for the
separate witness scenario. -/
def envExplorerDown2 : ProxyEnv :=
  { sampleEnvBase with
      get_proxy_upgrade_events := fun _ => .error "RPC down" }

/-- C5 environment: the explorer finds no upgrade events for anything. -/
def envNoEvents : ProxyEnv := sampleEnvBase

/-- C9 environment: events exist but the contract's URL is not a supported
explorer URL. -/
def envUnsupported : ProxyEnv :=
  { sampleEnvBase with
      get_proxy_upgrade_events := fun _ => .ok [sampleEventA]
      is_supported_explorer := fun _ => (false, "") }

/-- C7 counterexample environment: the first asset's embedding call raises
a database error, the second would succeed. -/
def embedEnvDbError : EmbedEnv :=
  { query_ok := .ok [1, 2]
    update_asset_embedding := fun aid =>
      if aid = 1 then .error "Database error: connection lost" else .ok [5]
    execute_update := fun _ => .ok ()
    commit := fun _ => .ok () }

/-- C7 witness environment: no call fails. -/
def embedEnvClean : EmbedEnv :=
  { query_ok := .ok [1, 2, 3]
    update_asset_embedding := fun _ => .ok [5]
    execute_update := fun _ => .ok ()
    commit := fun _ => .ok () }

/-! ## Theorems: event bus -/

theorem dispatchList_append (hs₁ hs₂ : List HandlerClass)
    (t : HandlerTrigger) (ctx : Context) :
    dispatchList (hs₁ ++ hs₂) t ctx =
      dispatchList hs₁ t ctx ++ dispatchList hs₂ t ctx := by
  simp [dispatchList, List.filterMap_append]

theorem completedCount_append (l₁ l₂ : List (Except String String)) :
    completedCount (l₁ ++ l₂) = completedCount l₁ + completedCount l₂ := by
  simp [completedCount, List.filter_append]

theorem completedCount_dispatchList (hs : List HandlerClass)
    (t : HandlerTrigger) (ctx : Context) :
    completedCount (dispatchList hs t ctx) =
      (hs.filter (fun hc => handlerSucceeds hc ctx t)).length := by
  induction hs with
  | nil => rfl
  | cons hc hs ih =>
    show completedCount (dispatchList ([hc] ++ hs) t ctx) = _
    rw [dispatchList_append, completedCount_append, ih]
    rcases h : hc.create ctx t with e | beh
    · simp [dispatchList, completedCount, List.filter_cons, handlerSucceeds, h]
    · rcases beh with e | r <;>
        simp [dispatchList, completedCount, execute_handler,
          List.filter_cons, handlerSucceeds, h, Nat.add_comm]

theorem handlerSucceeds_eq_false_of_raises (hc : HandlerClass) (ctx : Context)
    (t : HandlerTrigger) (h : handlerRaises hc ctx t = true) :
    handlerSucceeds hc ctx t = false := by
  unfold handlerRaises at h
  unfold handlerSucceeds
  rcases hcr : hc.create ctx t with e | beh
  · rfl
  · rcases beh with e | r
    · rfl
    · rw [hcr] at h
      exact absurd h (by simp)

/-- C1: during `trigger_event`, a handler that raises (in instantiation,
`set_context` or `handle()`) does not prevent any sibling handler from
running to completion: with the trigger's handler list split as
`pre ++ bad :: post` where every class in `pre` and `post` succeeds and
`bad` raises, the dispatch log still records `pre.length + post.length`
completed handler runs — all other N−1 handlers run to completion — and
`trigger_event` itself returns this log normally (it is a total function:
every raise is caught at lines 48-52, 58-59 or 68-69 of
src/handlers/event_bus.py). -/
theorem trigger_event_isolates_handler_failure
    (bus : EventBusState) (t : HandlerTrigger) (ctx : Context)
    (pre post : List HandlerClass) (bad : HandlerClass)
    (hbus : bus t = pre ++ bad :: post)
    (hpre : ∀ hc ∈ pre, handlerSucceeds hc ctx t = true)
    (hpost : ∀ hc ∈ post, handlerSucceeds hc ctx t = true)
    (hbad : handlerRaises bad ctx t = true) :
    completedCount (trigger_event bus t ctx) = pre.length + post.length := by
  have hne : (bus t).isEmpty = false := by
    rw [hbus]
    rcases pre with _ | ⟨p, ps⟩ <;> rfl
  rw [show trigger_event bus t ctx
      = if (bus t).isEmpty then [] else dispatchList (bus t) t ctx from rfl]
  rw [hne]
  simp only [Bool.false_eq_true, if_false, hbus]
  rw [completedCount_dispatchList, List.filter_append, List.filter_cons,
    handlerSucceeds_eq_false_of_raises bad ctx t hbad]
  simp only [Bool.false_eq_true, if_false]
  rw [List.filter_eq_self.mpr hpre, List.filter_eq_self.mpr hpost,
    List.length_append]

theorem trigger_event_isolates_handler_failure_witness :
    handlerRaises raisingHandler [] .CONTRACT_UPGRADED = true ∧
    completedCount (trigger_event demoBus .CONTRACT_UPGRADED []) = 2 :=
  ⟨rfl,
    trigger_event_isolates_handler_failure demoBus .CONTRACT_UPGRADED []
      [goodHandlerA] [goodHandlerA] raisingHandler rfl
      (by decide) (by decide) rfl⟩

/-- C8: `register_handler` is additive, not idempotent: registering the same
class twice appends it twice to the handler list of each trigger it declares
(here: a trigger occurring once in `get_triggers()`), and a subsequent
`trigger_event` on a bus that was empty before the two registrations
dispatches the class twice — the log is the one-class dispatch twice. -/
theorem register_handler_twice_duplicates_dispatch
    (bus : EventBusState) (hc : HandlerClass) (t : HandlerTrigger)
    (ctx : Context) (h : hc.get_triggers.count t = 1) :
    (register_handler (register_handler bus hc) hc) t = bus t ++ [hc, hc] ∧
    trigger_event (register_handler (register_handler EventBusState.init hc) hc)
        t ctx
      = dispatchList [hc] t ctx ++ dispatchList [hc] t ctx := by
  have h2 : ∀ b : EventBusState,
      (register_handler (register_handler b hc) hc) t = b t ++ [hc, hc] := by
    intro b
    simp [register_handler, h]
  refine ⟨h2 bus, ?_⟩
  have h3 : (register_handler (register_handler EventBusState.init hc) hc) t
      = [hc, hc] := h2 EventBusState.init
  rw [show trigger_event (register_handler (register_handler
        EventBusState.init hc) hc) t ctx
      = if ((register_handler (register_handler EventBusState.init hc) hc)
            t).isEmpty then []
        else dispatchList ((register_handler (register_handler
          EventBusState.init hc) hc) t) t ctx from rfl]
  rw [h3]
  exact dispatchList_append [hc] [hc] t ctx

theorem register_handler_twice_duplicates_dispatch_witness :
    goodHandlerA.get_triggers.count HandlerTrigger.CONTRACT_UPGRADED = 1 ∧
    ((register_handler (register_handler EventBusState.init goodHandlerA)
          goodHandlerA) HandlerTrigger.CONTRACT_UPGRADED
        = EventBusState.init HandlerTrigger.CONTRACT_UPGRADED
            ++ [goodHandlerA, goodHandlerA] ∧
      trigger_event
          (register_handler (register_handler EventBusState.init goodHandlerA)
            goodHandlerA) HandlerTrigger.CONTRACT_UPGRADED []
        = dispatchList [goodHandlerA] HandlerTrigger.CONTRACT_UPGRADED []
            ++ dispatchList [goodHandlerA] HandlerTrigger.CONTRACT_UPGRADED []) :=
  ⟨rfl,
    register_handler_twice_duplicates_dispatch EventBusState.init goodHandlerA
      HandlerTrigger.CONTRACT_UPGRADED [] rfl⟩

/-! ## Theorems: proxy monitor — branch characterizations -/

theorem processContract_events_error (env : ProxyEnv) (db : List Asset)
    (contract : Asset) (msg : String)
    (h : env.get_proxy_upgrade_events contract.identifier = .error msg) :
    processContract env db contract = (db, []) := by
  unfold processContract
  rw [h]

theorem processContract_no_events (env : ProxyEnv) (db : List Asset)
    (contract : Asset)
    (h : env.get_proxy_upgrade_events contract.identifier = .ok []) :
    processContract env db contract
      = (updateAsset db contract.identifier (flaggedNonProxy contract), []) := by
  unfold processContract
  rw [h]
  rfl

theorem processContract_unsupported (env : ProxyEnv) (db : List Asset)
    (contract : Asset) (ev : UpgradeEvent) (evs : List UpgradeEvent)
    (etype : String)
    (hev : env.get_proxy_upgrade_events contract.identifier = .ok (ev :: evs))
    (hsup : env.is_supported_explorer contract.identifier = (false, etype)) :
    processContract env db contract = (db, []) := by
  unfold processContract
  rw [hev]
  simp [hsup]

theorem processContract_unchanged (env : ProxyEnv) (db : List Asset)
    (contract : Asset) (ev : UpgradeEvent) (evs : List UpgradeEvent)
    (etype : String) (latest : UpgradeEvent) (impl_url : String)
    (hev : env.get_proxy_upgrade_events contract.identifier = .ok (ev :: evs))
    (hsup : env.is_supported_explorer contract.identifier = (true, etype))
    (hlatest : (ev :: evs).getLast! = latest)
    (hurl : implementationUrl env etype latest.implementation = impl_url)
    (hsame : contract.implementation = some impl_url) :
    processContract env db contract = (db, []) := by
  unfold processContract
  rw [hev]
  simp [hsup, hlatest, hurl, hsame]

theorem processContract_link_found (env : ProxyEnv) (db : List Asset)
    (contract : Asset) (ev : UpgradeEvent) (evs : List UpgradeEvent)
    (etype : String) (latest : UpgradeEvent) (impl_url : String) (ia : Asset)
    (hev : env.get_proxy_upgrade_events contract.identifier = .ok (ev :: evs))
    (hsup : env.is_supported_explorer contract.identifier = (true, etype))
    (hlatest : (ev :: evs).getLast! = latest)
    (hurl : implementationUrl env etype latest.implementation = impl_url)
    (hchanged : contract.implementation ≠ some impl_url)
    (hfind : db.find? (fun a => a.identifier == impl_url) = some ia) :
    processContract env db contract
      = linkImplementation db contract latest impl_url ia.identifier := by
  unfold processContract
  rw [hev]
  simp [hsup, hlatest, hurl, hchanged, hfind]

theorem processContract_fetch_error (env : ProxyEnv) (db : List Asset)
    (contract : Asset) (ev : UpgradeEvent) (evs : List UpgradeEvent)
    (etype : String) (latest : UpgradeEvent) (impl_url : String)
    (msg : String)
    (hev : env.get_proxy_upgrade_events contract.identifier = .ok (ev :: evs))
    (hsup : env.is_supported_explorer contract.identifier = (true, etype))
    (hlatest : (ev :: evs).getLast! = latest)
    (hurl : implementationUrl env etype latest.implementation = impl_url)
    (hchanged : contract.implementation ≠ some impl_url)
    (hfind : db.find? (fun a => a.identifier == impl_url) = none)
    (hfetch : env.fetch_verified_sources impl_url
        (targetDir env contract.project_id (env.explorer_domain etype)
          latest.implementation) = .error msg) :
    processContract env db contract = (db, []) := by
  unfold processContract
  rw [hev]
  simp [hsup, hlatest, hurl, hchanged, hfind, hfetch]

theorem processContract_link_created (env : ProxyEnv) (db : List Asset)
    (contract : Asset) (ev : UpgradeEvent) (evs : List UpgradeEvent)
    (etype : String) (latest : UpgradeEvent) (impl_url : String)
    (hev : env.get_proxy_upgrade_events contract.identifier = .ok (ev :: evs))
    (hsup : env.is_supported_explorer contract.identifier = (true, etype))
    (hlatest : (ev :: evs).getLast! = latest)
    (hurl : implementationUrl env etype latest.implementation = impl_url)
    (hchanged : contract.implementation ≠ some impl_url)
    (hfind : db.find? (fun a => a.identifier == impl_url) = none)
    (hfetch : env.fetch_verified_sources impl_url
        (targetDir env contract.project_id (env.explorer_domain etype)
          latest.implementation) = .ok ()) :
    processContract env db contract
      = linkImplementation
          (db ++ [createdImplAsset contract impl_url
            (targetDir env contract.project_id (env.explorer_domain etype)
              latest.implementation)])
          contract latest impl_url impl_url := by
  unfold processContract
  rw [hev]
  simp [hsup, hlatest, hurl, hchanged, hfind, hfetch, createdImplAsset]

/-! ## Theorems: proxy monitor — database update and frame lemmas -/

theorem mem_updateAsset_self (db : List Asset) (ident : String) (a' a : Asset)
    (ha : a ∈ db) (h : a.identifier = ident) :
    a' ∈ updateAsset db ident a' := by
  unfold updateAsset
  have hm := List.mem_map_of_mem
    (fun x : Asset => if x.identifier == ident then a' else x) ha
  simpa [h] using hm

theorem mem_updateAsset_other (db : List Asset) (ident : String)
    (a' a : Asset) (ha : a ∈ db) (h : a.identifier ≠ ident) :
    a ∈ updateAsset db ident a' := by
  unfold updateAsset
  have hm := List.mem_map_of_mem
    (fun x : Asset => if x.identifier == ident then a' else x) ha
  simpa [beq_iff_eq, h] using hm

theorem processContract_frame (env : ProxyEnv) (db : List Asset)
    (c a : Asset) (ha : a ∈ db) (hne : a.identifier ≠ c.identifier) :
    a ∈ (processContract env db c).1 := by
  rcases hev : env.get_proxy_upgrade_events c.identifier with msg | evs
  · rw [processContract_events_error env db c msg hev]
    exact ha
  · rcases evs with _ | ⟨ev, evs⟩
    · rw [processContract_no_events env db c hev]
      exact mem_updateAsset_other _ _ _ _ ha hne
    · rcases hsup : env.is_supported_explorer c.identifier with ⟨b, etype⟩
      cases b with
      | false =>
          rw [processContract_unsupported env db c ev evs etype hev hsup]
          exact ha
      | true =>
          by_cases hsame : c.implementation
              = some (implementationUrl env etype
                ((ev :: evs).getLast!).implementation)
          · rw [processContract_unchanged env db c ev evs etype
              ((ev :: evs).getLast!) _ hev hsup rfl rfl hsame]
            exact ha
          · rcases hfind : db.find? (fun x => x.identifier
                == implementationUrl env etype
                  ((ev :: evs).getLast!).implementation) with _ | ia
            · rcases hfetch : env.fetch_verified_sources
                  (implementationUrl env etype
                    ((ev :: evs).getLast!).implementation)
                  (targetDir env c.project_id (env.explorer_domain etype)
                    ((ev :: evs).getLast!).implementation) with m | u
              · rw [processContract_fetch_error env db c ev evs etype
                  ((ev :: evs).getLast!) _ m hev hsup rfl rfl hsame hfind
                  hfetch]
                exact ha
              · cases u
                rw [processContract_link_created env db c ev evs etype
                  ((ev :: evs).getLast!) _ hev hsup rfl rfl hsame hfind
                  hfetch]
                unfold linkImplementation
                exact mem_updateAsset_other _ _ _ _
                  (List.mem_append_left _ ha) hne
            · rw [processContract_link_found env db c ev evs etype
                ((ev :: evs).getLast!) _ ia hev hsup rfl rfl hsame hfind]
              unfold linkImplementation
              exact mem_updateAsset_other _ _ _ _ ha hne

theorem processAll_frame (env : ProxyEnv) (cs : List Asset)
    (db : List Asset) (a : Asset) (ha : a ∈ db)
    (hne : ∀ c ∈ cs, c.identifier ≠ a.identifier) :
    a ∈ (processAll env cs db).1 := by
  induction cs generalizing db with
  | nil => exact ha
  | cons c rest ih =>
      show a ∈ (processAll env rest (processContract env db c).1).1
      exact ih (processContract env db c).1
        (processContract_frame env db c a ha
          (fun h => hne c (List.mem_cons_self c rest) h.symm))
        (fun d hd => hne d (List.mem_cons_of_mem c hd))

theorem processAll_db_append (env : ProxyEnv) (xs ys : List Asset)
    (db : List Asset) :
    (processAll env (xs ++ ys) db).1
      = (processAll env ys (processAll env xs db).1).1 := by
  induction xs generalizing db with
  | nil => rfl
  | cons x xs ih =>
      show (processAll env (xs ++ ys) (processContract env db x).1).1 = _
      exact ih (processContract env db x).1

/-! ## Theorems: proxy monitor — claims -/

/-- C9: a tracked contract with upgrade events whose identifier is not a
supported explorer URL is skipped with no state change at all: the step
returns the database unchanged (no `is_not_proxy` flag, no relink, no
history append) and emits nothing, and the query set of a subsequent run is
exactly the query set before, so the contract is re-checked. -/
theorem proxy_unsupported_explorer_no_state_change
    (env : ProxyEnv) (db : List Asset) (contract : Asset)
    (ev : UpgradeEvent) (evs : List UpgradeEvent) (etype : String)
    (hev : env.get_proxy_upgrade_events contract.identifier = .ok (ev :: evs))
    (hsup : env.is_supported_explorer contract.identifier = (false, etype)) :
    processContract env db contract = (db, []) ∧
    proxyQuery ((processContract env db contract).1) = proxyQuery db := by
  have h := processContract_unsupported env db contract ev evs etype hev hsup
  exact ⟨h, by rw [h]⟩

theorem proxy_unsupported_explorer_no_state_change_witness :
    envUnsupported.is_supported_explorer sampleProxy.identifier = (false, "") ∧
    (processContract envUnsupported [sampleProxy] sampleProxy
        = ([sampleProxy], []) ∧
      proxyQuery ((processContract envUnsupported [sampleProxy]
          sampleProxy).1) = proxyQuery [sampleProxy]) :=
  ⟨rfl,
    proxy_unsupported_explorer_no_state_change envUnsupported [sampleProxy]
      sampleProxy sampleEventA [] "" rfl rfl⟩

/-- C10: whenever the per-contract loop runs to the end (the only error
outside the loop would be the initial session/query), the job completes
with `JobResult(success=True, message="Proxy monitoring completed
successfully")`, no matter how many individual contracts failed inside the
loop (the environment is arbitrary, so any number of per-contract
exceptions may have occurred and been swallowed). -/
theorem proxy_run_completes_successfully (env : ProxyEnv) (db : List Asset)
    (h : env.open_query = .ok ()) :
    (proxyMonitorRun env db).status = .COMPLETED ∧
    (proxyMonitorRun env db).result
      = some { success := true
               message := "Proxy monitoring completed successfully" } := by
  unfold proxyMonitorRun
  rw [h]
  exact ⟨rfl, rfl⟩

theorem proxy_run_completes_successfully_witness :
    envExplorerDown2.open_query = .ok () ∧
    envExplorerDown2.get_proxy_upgrade_events sampleProxy.identifier
      = .error "RPC down" ∧
    ((proxyMonitorRun envExplorerDown2 [sampleProxy]).status = .COMPLETED ∧
      (proxyMonitorRun envExplorerDown2 [sampleProxy]).result
        = some { success := true
                 message := "Proxy monitoring completed successfully" }) :=
  ⟨rfl, rfl,
    proxy_run_completes_successfully envExplorerDown2 [sampleProxy] rfl⟩

/-- C4: an exception while processing one contract leaves the committed
database unchanged (the transaction is rolled back) and the loop continues
with the remaining contracts — running the loop with the failing contract
in the middle equals running it without that contract — and the job ends
FAILED exactly when the error is outside the per-contract loop (the initial
session/query raises). -/
theorem proxy_contract_failure_isolated
    (env : ProxyEnv) (db : List Asset) (pre post : List Asset) (bad : Asset)
    (msg : String)
    (hbad : env.get_proxy_upgrade_events bad.identifier = .error msg) :
    (∀ d : List Asset, processContract env d bad = (d, [])) ∧
    processAll env (pre ++ bad :: post) db = processAll env (pre ++ post) db ∧
    ((proxyMonitorRun env db).status = .FAILED
      ↔ ∃ m, env.open_query = .error m) := by
  have hskip : ∀ d : List Asset, processContract env d bad = (d, []) :=
    fun d => processContract_events_error env d bad msg hbad
  refine ⟨hskip, ?_, ?_⟩
  · induction pre generalizing db with
    | nil =>
        show processAll env (bad :: post) db = processAll env post db
        simp [processAll, hskip db]
    | cons p pre ih =>
        show processAll env (p :: (pre ++ bad :: post)) db
          = processAll env (p :: (pre ++ post)) db
        simp only [processAll]
        rw [ih]
  · rcases hq : env.open_query with e | u
    · unfold proxyMonitorRun
      rw [hq]
      simp
    · unfold proxyMonitorRun
      rw [hq]
      simp

theorem proxy_contract_failure_isolated_witness :
    envExplorerDown.get_proxy_upgrade_events sampleProxy.identifier
      = .error "RPC timeout" ∧
    ((∀ d : List Asset,
        processContract envExplorerDown d sampleProxy = (d, [])) ∧
      processAll envExplorerDown ([] ++ sampleProxy :: []) [sampleProxy]
        = processAll envExplorerDown ([] ++ []) [sampleProxy] ∧
      ((proxyMonitorRun envExplorerDown [sampleProxy]).status = .FAILED
        ↔ ∃ m, envExplorerDown.open_query = .error m)) :=
  ⟨rfl,
    proxy_contract_failure_isolated envExplorerDown [sampleProxy] [] []
      sampleProxy "RPC timeout" rfl⟩

/-- C2 (amended): for a contract whose latest event's implementation URL
equals the identifier of the already-linked implementation asset, the
per-contract step is skipped: no `implementation_history` entry is appended
and no `CONTRACT_UPGRADED` event is emitted.  Run-level idempotence — the
original claim — fails: an implementation asset created (or made findable)
by the first run enters the second run's query set and can itself be linked
and emit, see the counterexample. -/
theorem proxy_skip_when_implementation_unchanged
    (env : ProxyEnv) (db : List Asset) (contract : Asset)
    (ev : UpgradeEvent) (evs : List UpgradeEvent) (etype : String)
    (latest : UpgradeEvent) (impl_url : String)
    (hev : env.get_proxy_upgrade_events contract.identifier = .ok (ev :: evs))
    (hsup : env.is_supported_explorer contract.identifier = (true, etype))
    (hlatest : (ev :: evs).getLast! = latest)
    (hurl : implementationUrl env etype latest.implementation = impl_url)
    (hsame : contract.implementation = some impl_url) :
    processContract env db contract = (db, []) :=
  processContract_unchanged env db contract ev evs etype latest impl_url
    hev hsup hlatest hurl hsame

theorem proxy_skip_when_implementation_unchanged_witness :
    sampleLinkedProxy.implementation = some "https://e.io/address/0xA" ∧
    processContract envLinked [sampleLinkedProxy] sampleLinkedProxy
      = ([sampleLinkedProxy], []) :=
  ⟨rfl,
    proxy_skip_when_implementation_unchanged envLinked [sampleLinkedProxy]
      sampleLinkedProxy sampleEventA [] "etherscan" sampleEventA
      "https://e.io/address/0xA" rfl rfl rfl rfl rfl⟩

/-- C2 (counterexample to the claim as stated): with fixed event sequences
(the explorer returns the same events for every contract on both runs), a
second `ProxyMonitorJob` run after a first one still emits a
`CONTRACT_UPGRADED` event: the first run links the proxy to a newly created
implementation asset, the second run's query picks that asset up as a
deployed contract and — its own latest event's implementation URL differing
from its (absent) linked implementation — links it and emits. -/
theorem proxy_second_run_emits_counterexample :
    (proxyMonitorRun envTwoRuns
        (proxyMonitorRun envTwoRuns [sampleProxy]).db).emitted ≠ [] := by
  decide

/-- C3: for a tracked contract whose latest event's implementation differs
from the currently linked implementation, the per-contract step (lines
70-145) re-links the contract's implementation to an asset whose identifier
equals the canonical URL built from the event's implementation address,
appends exactly one trailing `{address, url, block_number, timestamp}`
record from that event to `implementation_history`, commits, and then emits
exactly one `CONTRACT_UPGRADED` event with context
`{proxy, old_implementation, new_implementation, event}`. -/
theorem proxy_relink_appends_history_and_emits
    (env : ProxyEnv) (db : List Asset) (contract : Asset)
    (ev : UpgradeEvent) (evs : List UpgradeEvent) (etype : String)
    (latest : UpgradeEvent) (impl_url : String)
    (hmem : contract ∈ db)
    (hev : env.get_proxy_upgrade_events contract.identifier = .ok (ev :: evs))
    (hsup : env.is_supported_explorer contract.identifier = (true, etype))
    (hlatest : (ev :: evs).getLast! = latest)
    (hurl : implementationUrl env etype latest.implementation = impl_url)
    (hchanged : contract.implementation ≠ some impl_url)
    (hfetch : env.fetch_verified_sources impl_url
        (targetDir env contract.project_id (env.explorer_domain etype)
          latest.implementation) = .ok ()) :
    (processContract env db contract).2
        = [{ proxy := contract.identifier
             old_implementation := contract.implementation
             new_implementation := impl_url
             event := latest }]
    ∧ (∃ c' ∈ (processContract env db contract).1,
          c'.identifier = contract.identifier
          ∧ c'.implementation = some impl_url
          ∧ historyOf c' = historyOf contract
              ++ [{ address := latest.implementation
                    url := impl_url
                    block_number := latest.blockNumber
                    timestamp := latest.timestamp }])
    ∧ (∃ a ∈ (processContract env db contract).1, a.identifier = impl_url) := by
  rcases hfind : db.find? (fun a => a.identifier == impl_url) with _ | ia
  · -- implementation asset does not exist yet: fetched and created
    have hci : contract.identifier ≠ impl_url := by
      have := List.find?_eq_none.mp hfind contract hmem
      simpa [beq_iff_eq] using this
    rw [processContract_link_created env db contract ev evs etype latest
      impl_url hev hsup hlatest hurl hchanged hfind hfetch]
    refine ⟨rfl, ?_, ?_⟩
    · exact ⟨relinkedContract contract latest impl_url impl_url,
        mem_updateAsset_self _ _ _ contract
          (List.mem_append_left _ hmem) rfl, rfl, rfl, rfl⟩
    · refine ⟨createdImplAsset contract impl_url
        (targetDir env contract.project_id (env.explorer_domain etype)
          latest.implementation), ?_, rfl⟩
      exact mem_updateAsset_other _ _ _ _
        (List.mem_append_right _ (by simp)) (Ne.symm hci)
  · -- implementation asset already exists
    have hid : ia.identifier = impl_url := by
      have h := List.find?_some hfind
      simpa [beq_iff_eq] using h
    rw [processContract_link_found env db contract ev evs etype latest
      impl_url ia hev hsup hlatest hurl hchanged hfind]
    refine ⟨by rw [show (linkImplementation db contract latest impl_url
        ia.identifier).2
        = [{ proxy := contract.identifier
             old_implementation := contract.implementation
             new_implementation := ia.identifier
             event := latest }] from rfl, hid], ?_, ?_⟩
    · exact ⟨relinkedContract contract latest impl_url ia.identifier,
        mem_updateAsset_self _ _ _ contract hmem rfl, rfl,
        by rw [show (relinkedContract contract latest impl_url
            ia.identifier).implementation = some ia.identifier from rfl, hid],
        rfl⟩
    · by_cases hcase : ia.identifier = contract.identifier
      · refine ⟨relinkedContract contract latest impl_url ia.identifier,
          mem_updateAsset_self _ _ _ contract hmem rfl, ?_⟩
        show contract.identifier = impl_url
        rw [← hcase, hid]
      · exact ⟨ia, mem_updateAsset_other _ _ _ _
          (List.mem_of_find?_eq_some hfind) hcase, hid⟩

theorem proxy_relink_appends_history_and_emits_witness :
    sampleProxy.implementation ≠ some "https://e.io/address/0xA" ∧
    ((processContract envLinked [sampleProxy] sampleProxy).2
        = [{ proxy := sampleProxy.identifier
             old_implementation := sampleProxy.implementation
             new_implementation := "https://e.io/address/0xA"
             event := sampleEventA }]
      ∧ (∃ c' ∈ (processContract envLinked [sampleProxy] sampleProxy).1,
            c'.identifier = sampleProxy.identifier
            ∧ c'.implementation = some "https://e.io/address/0xA"
            ∧ historyOf c' = historyOf sampleProxy
                ++ [{ address := sampleEventA.implementation
                      url := "https://e.io/address/0xA"
                      block_number := sampleEventA.blockNumber
                      timestamp := sampleEventA.timestamp }])
      ∧ (∃ a ∈ (processContract envLinked [sampleProxy] sampleProxy).1,
            a.identifier = "https://e.io/address/0xA")) :=
  ⟨by decide,
    proxy_relink_appends_history_and_emits envLinked [sampleProxy]
      sampleProxy sampleEventA [] "etherscan" sampleEventA
      "https://e.io/address/0xA" (by decide) rfl rfl rfl rfl (by decide) rfl⟩

/-- C5: a tracked deployed contract for which the explorer returns no
upgrade events is flagged `is_not_proxy = true` and committed by one run,
and the flagged row is excluded from the query set of any subsequent run.
The database is assumed to have pairwise distinct identifiers within the
query snapshot (identifiers are keys). -/
theorem proxy_no_events_flags_and_excludes
    (env : ProxyEnv) (db : List Asset) (contract : Asset)
    (hq : env.open_query = .ok ())
    (hmem : contract ∈ proxyQuery db)
    (hev : env.get_proxy_upgrade_events contract.identifier = .ok [])
    (hnd : ((proxyQuery db).map (fun a => a.identifier)).Nodup) :
    flaggedNonProxy contract ∈ (proxyMonitorRun env db).db
    ∧ hasIsNotProxyFlag (flaggedNonProxy contract) = true
    ∧ flaggedNonProxy contract ∉ proxyQuery ((proxyMonitorRun env db).db) := by
  have hdb : contract ∈ db := List.mem_of_mem_filter hmem
  obtain ⟨pre, post, hsplit⟩ := List.append_of_mem hmem
  have hnd' := hsplit ▸ hnd
  rw [List.map_append, List.map_cons, List.nodup_append] at hnd'
  obtain ⟨_, hnd2, hdisj⟩ := hnd'
  have hpre : ∀ d ∈ pre, d.identifier ≠ contract.identifier := by
    intro d hd heq
    exact hdisj (List.mem_map_of_mem _ hd)
      (by rw [heq]; exact List.mem_cons_self _ _)
  have hpost : ∀ d ∈ post, d.identifier ≠ contract.identifier := by
    intro d hd heq
    rcases List.nodup_cons.mp hnd2 with ⟨hnotin, _⟩
    exact hnotin (heq ▸ List.mem_map_of_mem _ hd)
  have hrun : (proxyMonitorRun env db).db
      = (processAll env (proxyQuery db) db).1 := by
    unfold proxyMonitorRun
    rw [hq]
  rw [hrun, hsplit, processAll_db_append]
  have hc1 : contract ∈ (processAll env pre db).1 :=
    processAll_frame env pre db contract hdb hpre
  have hstep : (processAll env (contract :: post)
        (processAll env pre db).1).1
      = (processAll env post (updateAsset (processAll env pre db).1
          contract.identifier (flaggedNonProxy contract))).1 := by
    show (processAll env post
      (processContract env (processAll env pre db).1 contract).1).1 = _
    rw [processContract_no_events env _ contract hev]
  rw [hstep]
  have hmem2 : flaggedNonProxy contract
      ∈ updateAsset (processAll env pre db).1 contract.identifier
        (flaggedNonProxy contract) :=
    mem_updateAsset_self _ _ _ contract hc1 rfl
  have hfinal : flaggedNonProxy contract
      ∈ (processAll env post (updateAsset (processAll env pre db).1
          contract.identifier (flaggedNonProxy contract))).1 :=
    processAll_frame env post _ (flaggedNonProxy contract) hmem2
      (fun d hd => hpost d hd)
  refine ⟨hfinal, rfl, ?_⟩
  intro hin
  have hp := (List.mem_filter.mp hin).2
  simp [hasIsNotProxyFlag, flaggedNonProxy] at hp

theorem proxy_no_events_flags_and_excludes_witness :
    envNoEvents.get_proxy_upgrade_events sampleProxy.identifier = .ok [] ∧
    (flaggedNonProxy sampleProxy
        ∈ (proxyMonitorRun envNoEvents [sampleProxy]).db
      ∧ hasIsNotProxyFlag (flaggedNonProxy sampleProxy) = true
      ∧ flaggedNonProxy sampleProxy
          ∉ proxyQuery ((proxyMonitorRun envNoEvents [sampleProxy]).db)) :=
  ⟨rfl,
    proxy_no_events_flags_and_excludes envNoEvents [sampleProxy] sampleProxy
      rfl (by decide) rfl (by decide)⟩

/-! ## Theorems: embed and autobot jobs -/

theorem embedFinish_status (st : EmbedState) :
    ((embedFinish st).status = .COMPLETED ∨ (embedFinish st).status = .FAILED)
    ∧ (embedFinish st).status.isTerminal = true := by
  rcases hr : st.raised with _ | e
  · unfold embedFinish
    rw [hr]
    exact ⟨Or.inl rfl, rfl⟩
  · unfold embedFinish
    rw [hr]
    exact ⟨Or.inr rfl, rfl⟩

theorem embedStep_embed_error (env : EmbedEnv) (total : Nat)
    (st : EmbedState) (i aid : Nat) (e : String)
    (hr : st.raised = none)
    (he : env.update_asset_embedding aid = .error e)
    (hdb : containsSubstr e "Database error" = false) :
    embedStep env total st i aid = { st with failed := st.failed + 1 } := by
  unfold embedStep
  simp [hr, he, hdb]

theorem embedStep_raised_none (env : EmbedEnv) (total : Nat)
    (st : EmbedState) (i aid : Nat)
    (hr : st.raised = none)
    (h1 : ∀ e, env.update_asset_embedding aid = .error e →
      containsSubstr e "Database error" = false)
    (h2 : ∀ e, env.execute_update aid = .error e →
      containsSubstr e "Database error" = false)
    (h3 : ∀ n e, env.commit n = .error e →
      containsSubstr e "Database error" = false) :
    (embedStep env total st i aid).raised = none := by
  unfold embedStep
  simp only [hr, Option.isSome_none, Bool.false_eq_true, if_false]
  rcases hu : env.update_asset_embedding aid with e | emb
  · simp [h1 e hu, hr]
  · rcases emb with _ | ⟨x, xs⟩
    · simp [hr]
    · rcases he : env.execute_update aid with e | u
      · simp [h2 e he, hr]
      · simp only []
        split
        · rcases hcm : env.commit st.commit_count with e | u2
          · simp [hcm, h3 st.commit_count e hcm, hr]
          · simp [hcm, hr]
        · simp [hr]

theorem embedLoop_raised_none (env : EmbedEnv) (total : Nat)
    (items : List (Nat × Nat)) (st : EmbedState)
    (hr : st.raised = none)
    (h1 : ∀ aid e, env.update_asset_embedding aid = .error e →
      containsSubstr e "Database error" = false)
    (h2 : ∀ aid e, env.execute_update aid = .error e →
      containsSubstr e "Database error" = false)
    (h3 : ∀ n e, env.commit n = .error e →
      containsSubstr e "Database error" = false) :
    (embedLoop env total items st).raised = none := by
  induction items generalizing st with
  | nil => exact hr
  | cons p rest ih =>
      rcases p with ⟨i, aid⟩
      exact ih (embedStep env total st i aid)
        (embedStep_raised_none env total st i aid hr
          (fun e he => h1 aid e he) (fun e he => h2 aid e he) h3)

/-- C6: for each of the three concrete jobs (`ProxyMonitorJob`, `EmbedJob`,
`AutobotJob`), whenever `start()` returns — the work succeeded or an
exception was raised and caught — the status is terminal (here always
COMPLETED or FAILED, both terminal), never RUNNING or PENDING: every exit
path calls exactly one of `complete(JobResult)` or `fail(error)`. -/
theorem jobs_terminal_status_after_start :
    (∀ (env : ProxyEnv) (db : List Asset),
        ((proxyMonitorRun env db).status = .COMPLETED
          ∨ (proxyMonitorRun env db).status = .FAILED)
        ∧ (proxyMonitorRun env db).status.isTerminal = true)
    ∧ (∀ env : EmbedEnv,
        ((embedStart env).status = .COMPLETED
          ∨ (embedStart env).status = .FAILED)
        ∧ (embedStart env).status.isTerminal = true)
    ∧ (∀ env : AutobotEnv,
        ((autobotStart env).status = .COMPLETED
          ∨ (autobotStart env).status = .FAILED)
        ∧ (autobotStart env).status.isTerminal = true) := by
  refine ⟨?_, ?_, ?_⟩
  · intro env db
    rcases hq : env.open_query with e | u
    · unfold proxyMonitorRun
      rw [hq]
      exact ⟨Or.inr rfl, rfl⟩
    · unfold proxyMonitorRun
      rw [hq]
      exact ⟨Or.inl rfl, rfl⟩
  · intro env
    rcases hq : env.query_ok with e | ids
    · unfold embedStart
      rw [hq]
      exact ⟨Or.inr rfl, rfl⟩
    · unfold embedStart
      rw [hq]
      exact embedFinish_status _
  · intro env
    rcases ht : env.execute_task with e | r
    · unfold autobotStart
      rw [ht]
      exact ⟨Or.inr rfl, rfl⟩
    · unfold autobotStart
      rw [ht]
      dsimp only
      cases hrs : r.success
      · exact ⟨Or.inr rfl, rfl⟩
      · exact ⟨Or.inl rfl, rfl⟩

/-- C7 (amended): a per-item error whose message does not contain
"Database error" is caught, increments the failed counter by one, and
processing continues; when no per-item error message contains
"Database error" (and the initial query succeeds), no per-item error
terminates the job: it reaches COMPLETED.  A per-item error containing
"Database error" is re-raised after incrementing the counter and fails the
whole job — see the counterexample. -/
theorem embed_per_item_error_policy (env : EmbedEnv) (ids : List Nat)
    (hq : env.query_ok = .ok ids)
    (h1 : ∀ aid e, env.update_asset_embedding aid = .error e →
      containsSubstr e "Database error" = false)
    (h2 : ∀ aid e, env.execute_update aid = .error e →
      containsSubstr e "Database error" = false)
    (h3 : ∀ n e, env.commit n = .error e →
      containsSubstr e "Database error" = false) :
    (embedStart env).status = .COMPLETED
    ∧ (∀ (total : Nat) (st : EmbedState) (i aid : Nat) (e : String),
        st.raised = none →
        env.update_asset_embedding aid = .error e →
        embedStep env total st i aid = { st with failed := st.failed + 1 }) := by
  constructor
  · have hstart : embedStart env
        = embedFinish (embedLoop env ids.length ids.enum
            { processed := 0, failed := 0, commit_count := 0
              current_batch := [], raised := none }) := by
      unfold embedStart
      rw [hq]
    have hn := embedLoop_raised_none env ids.length ids.enum
      { processed := 0, failed := 0, commit_count := 0
        current_batch := [], raised := none } rfl h1 h2 h3
    rw [hstart]
    unfold embedFinish
    rw [hn]
  · intro total st i aid e hr he
    exact embedStep_embed_error env total st i aid e hr he (h1 aid e he)

theorem embed_per_item_error_policy_witness :
    embedEnvClean.query_ok = .ok [1, 2, 3] ∧
    ((embedStart embedEnvClean).status = .COMPLETED
      ∧ (∀ (total : Nat) (st : EmbedState) (i aid : Nat) (e : String),
          st.raised = none →
          embedEnvClean.update_asset_embedding aid = .error e →
          embedStep embedEnvClean total st i aid
            = { st with failed := st.failed + 1 })) :=
  ⟨rfl,
    embed_per_item_error_policy embedEnvClean [1, 2, 3] rfl
      (fun aid e h => by simp [embedEnvClean] at h)
      (fun aid e h => by simp [embedEnvClean] at h)
      (fun n e h => by simp [embedEnvClean] at h)⟩

/-- C7 (counterexample to the claim as stated): a per-item error whose
message contains "Database error" terminates the whole job: with two
assets where the first one's embedding call raises
"Database error: connection lost", the job ends FAILED with that error,
the failed counter is 1, and the second asset is never processed
(processed stays 0) — the per-item error did terminate the job. -/
theorem embed_database_error_terminates_job :
    (embedStart embedEnvDbError).status = .FAILED
    ∧ (embedStart embedEnvDbError).failed = 1
    ∧ (embedStart embedEnvDbError).processed = 0
    ∧ (embedStart embedEnvDbError).error
        = some "Database error: connection lost" := by
  decide

end Legion
